import Mathlib

/-!
Shallow embedding of `crates/tweak/src/metadata.rs` from the foundry fork:
the `ClonedProject` model (compile/artifact caching, chain-identity check of
`tweaked_code`, equality/ordering by root) and the `CloneMetadata` descriptor
(loading from `.clone.meta`, descriptor-schema round trip).

External collaborators (the compiler service, the filesystem, the JSON parser,
the storage-compatibility checker and the code generator, which live outside
the shown source) are parameters of the embedded operations; effects on them
are made observable through explicit invocation counts and event traces.
Paths are modelled as strings; machine integers (`u64` chain ids, bytes) as
`Nat`, since the operations here only compare and move them.
-/

namespace Tweak

/-- A chain, as in `alloy_chains::Chain`: identified by its numeric chain id. -/
structure Chain where
  id : Nat
deriving DecidableEq, Repr

/-- The default chain (`Chain::default()`) is mainnet, whose chain id is 1. -/
def Chain.defaultChain : Chain := ⟨1⟩

/-- One entry of the compiler's extra-output selection
(`ContractOutputSelection`); the code only ever pushes `StorageLayout`. -/
inductive ContractOutputSelection where
  | abi
  | storageLayout
  | otherSel (s : String)
deriving DecidableEq, Repr

/-- The slice of `foundry_config::Config` that `metadata.rs` reads or writes:
the optional chain and the extra-output selection.  `residual` stands for all
the remaining configuration data, which the code carries along untouched. -/
structure Config where
  chain : Option Chain
  extra_output : List ContractOutputSelection
  residual : String
deriving DecidableEq, Repr

/-- One storage-variable descriptor of a storage layout: slot index, in-slot
byte offset, the type's byte size and encoding, and a label. -/
structure StorageVar where
  slot : Nat
  offset : Nat
  typeBytes : Nat
  typeEncoding : String
  label : String
deriving DecidableEq, Repr

/-- A storage layout: the ordered sequence of storage-variable descriptors. -/
structure StorageLayout where
  storage : List StorageVar
deriving DecidableEq, Repr

/-- A compiled contract artifact (`ConfigurableContractArtifact`): bytecode,
deployed bytecode and the storage layout emitted on request. -/
structure ConfigurableContractArtifact where
  bytecode : List Nat
  deployedBytecode : List Nat
  storage_layout : Option StorageLayout
deriving DecidableEq, Repr

/-- A compile output (`ProjectCompileOutput`), exposed as what
`artifacts_with_files()` iterates: `(file, contract_name, artifact)` triples
in the output's iteration order. -/
structure ProjectCompileOutput where
  artifacts : List (String × String × ConfigurableContractArtifact)
deriving DecidableEq, Repr

/-- The persisted clone descriptor (`CloneMetadata`).  Hex-encoded fixed-width
quantities (address, tx hash, deployer) are modelled by their numeric value,
the constructor-argument bytes by a list of byte values. -/
structure CloneMetadata where
  path : String
  target_contract : String
  address : Nat
  chain_id : Nat
  creation_transaction : Nat
  deployer : Nat
  constructor_arguments : List Nat
  storage_layout : StorageLayout
deriving DecidableEq, Repr

/-- A cloned project (`ClonedProject`): root path, configuration, metadata and the two
single-slot caches (`Arc<Mutex<Option<_>>>` in the source, modelled as the
option they guard; the sequential protocol check-then-get / compute-then-set
is embedded directly). -/
structure ClonedProject where
  root : String
  config : Config
  metadata : CloneMetadata
  compile_output_cache : Option ProjectCompileOutput
  main_artifact_cache : Option ConfigurableContractArtifact
deriving DecidableEq, Repr

/-- Error taxonomy of the subsystem (in the source every arm is an
`eyre::Report`; the constructors keep the data each error message carries). -/
inductive TweakError where
  | ioErr (msg : String)
  | notFound (msg : String)
  | parseErr (msg : String)
  | compileFail (diagnostics : String)
  | chainMismatch (projectChainId onChainChainId : Nat)
  | incompatibleStorage (msg : String)
  | rpcErr (msg : String)
deriving DecidableEq, Repr

/-- Equality of cloned projects (`impl PartialEq for ClonedProject`):
`self.root == other.root`. -/
def ClonedProject.beq (p q : ClonedProject) : Bool :=
  p.root == q.root

/-- Ordering of cloned projects (`impl Ord for ClonedProject`):
`self.root.cmp(&other.root)`. -/
def ClonedProject.cmp (p q : ClonedProject) : Ordering :=
  compare p.root q.root

/-- Optional ordering (`impl PartialOrd for ClonedProject`):
`Some(self.cmp(other))`. -/
def ClonedProject.pcmp (p q : ClonedProject) : Option Ordering :=
  some (ClonedProject.cmp p q)

/-- Joining one component onto a path (`PathBuf::join`), under the string
model of paths. -/
def pathJoin (root component : String) : String :=
  root ++ "/" ++ component

/-- The fixed conventional location of the clone descriptor:
`root.join(".clone.meta")`. -/
def cloneMetaPath (root : String) : String :=
  pathJoin root ".clone.meta"

/-- Whether a path is absolute (`Path::is_absolute`) under the (Unix) string
model of paths: the path
starts with the separator. -/
def isAbsolutePath (p : String) : Bool :=
  p.data.head? == some '/'

/-- Loading the descriptor (`CloneMetadata::load_with_root`): read the file
at `root/.clone.meta`
(`fs` is the filesystem, a partial map from path to contents; an absent file
is the `NotFound` io error of `fs::read_to_string`), then deserialize it
(`parseMeta` is `serde_json::from_str`; its failure is the parse error). -/
def CloneMetadata.load_with_root (fs : String → Option String)
    (parseMeta : String → Except String CloneMetadata) (root : String) :
    Except TweakError CloneMetadata :=
  match fs (cloneMetaPath root) with
  | none => .error (.notFound (cloneMetaPath root))
  | some contents =>
    match parseMeta contents with
    | .error e => .error (.parseErr e)
    | .ok metadata => .ok metadata

/-- The environment of `ClonedProject::load_with_root`: the filesystem and
descriptor parser (for the metadata load), the current-directory operations,
and `Config::load_with_root` (infallible in the source: it returns a
`Config`, not a `Result`). -/
structure LoadEnv where
  fs : String → Option String
  parseMeta : String → Except String CloneMetadata
  currentDir : Except String String
  setCurrentDir : String → Except String Unit
  configLoad : String → Config

/-- Outcome of a call that may panic (`assert!`), fail with an error (`?` /
`Err`), or succeed. -/
inductive LoadOutcome (α : Type) where
  | panicked
  | err (e : TweakError)
  | ok (a : α)
deriving DecidableEq, Repr

/-- Whether a `LoadOutcome` is an error return (as opposed to a panic or a
success). -/
def LoadOutcome.isErr {α : Type} : LoadOutcome α → Bool
  | .err _ => true
  | _ => false

/-- Loading a project (`ClonedProject::load_with_root`):
`assert!(root.is_absolute())` panics on a
relative root; then save the current directory, enter `root`, load the config,
restore the directory, load the metadata (each `?` propagating its error
unchanged), and construct the project with both caches empty. -/
def ClonedProject.load_with_root (env : LoadEnv) (root : String) :
    LoadOutcome ClonedProject :=
  if !(isAbsolutePath root) then .panicked
  else
    match env.currentDir with
    | .error e => .err (.ioErr e)
    | .ok cwd =>
      match env.setCurrentDir root with
      | .error e => .err (.ioErr e)
      | .ok _ =>
        let config := env.configLoad root
        match env.setCurrentDir cwd with
        | .error e => .err (.ioErr e)
        | .ok _ =>
          match CloneMetadata.load_with_root env.fs env.parseMeta root with
          | .error e => .err e
          | .ok metadata =>
            .ok { root := root, config := config, metadata := metadata,
                  compile_output_cache := none, main_artifact_cache := none }

/-- An opaque handle of `foundry_compilers::Project`, produced by
`config.project()`. -/
structure Project where
  tag : Nat
deriving DecidableEq, Repr

/-- The environment of `compile_safe`: current-directory operations,
`config.project()` and the external compiler service
(`ProjectCompiler::new().compile(&project)`). -/
structure CompileEnv where
  currentDir : Except String String
  setCurrentDir : String → Except String Unit
  mkProject : Config → Except String Project
  runCompiler : Project → Except String ProjectCompileOutput

/-- The push `config.extra_output.push(ContractOutputSelection::StorageLayout)` applied
to a clone of the configuration. -/
def withStorageLayoutOutput (c : Config) : Config :=
  { c with extra_output := c.extra_output ++ [ContractOutputSelection.storageLayout] }

/-- Result of one `compile_safe` call: the returned value, the project state
after the call (its caches may have been populated), and how many times the
external compiler service was invoked during the call. -/
structure CompileStep where
  result : Except TweakError ProjectCompileOutput
  state : ClonedProject
  compilerCalls : Nat
deriving Repr

/-- Compilation (`ClonedProject::compile_safe`): if the compile-output cache
is populated,
return the cached value (no compiler invocation).  Otherwise save and switch
the current directory, push `StorageLayout` onto a clone of the config, build
the project, run the external compiler (the one counted invocation), restore
the directory, and only then populate the cache and return the cached value. -/
def ClonedProject.compile_safe (env : CompileEnv) (p : ClonedProject) :
    CompileStep :=
  match p.compile_output_cache with
  | some out => ⟨.ok out, p, 0⟩
  | none =>
    match env.currentDir with
    | .error e => ⟨.error (.ioErr e), p, 0⟩
    | .ok cwd =>
      match env.setCurrentDir p.root with
      | .error e => ⟨.error (.ioErr e), p, 0⟩
      | .ok _ =>
        match env.mkProject (withStorageLayoutOutput p.config) with
        | .error e => ⟨.error (.compileFail e), p, 0⟩
        | .ok project =>
          match env.runCompiler project with
          | .error e => ⟨.error (.compileFail e), p, 1⟩
          | .ok output =>
            match env.setCurrentDir cwd with
            | .error e => ⟨.error (.ioErr e), p, 1⟩
            | .ok _ =>
              ⟨.ok output, { p with compile_output_cache := some output }, 1⟩

/-- The project state after `n` successive `compile_safe` calls. -/
def ClonedProject.compile_iter (env : CompileEnv) (p : ClonedProject) :
    Nat → ClonedProject
  | 0 => p
  | n + 1 => (ClonedProject.compile_safe env (p.compile_iter env n)).state

/-- The error message of `main_artifact` when no artifact matches. -/
def contractNotFoundMsg (contract : String) : String :=
  "the contract " ++ contract ++ " is not found in the project"

/-- Result of one `main_artifact` call: returned artifact, state after the
call, and compiler invocations made during the call. -/
structure ArtifactStep where
  result : Except TweakError ConfigurableContractArtifact
  state : ClonedProject
  compilerCalls : Nat
deriving Repr

/-- Artifact resolution (`ClonedProject::main_artifact`): if the artifact
cache is populated return
it; otherwise `compile_safe()?`, find the first `(file, contract_name,
artifact)` triple whose contract name equals `metadata.target_contract`
(erroring with the not-found message if none matches), cache the artifact and
return the cached value. -/
def ClonedProject.main_artifact (env : CompileEnv) (p : ClonedProject) :
    ArtifactStep :=
  match p.main_artifact_cache with
  | some a => ⟨.ok a, p, 0⟩
  | none =>
    match (ClonedProject.compile_safe env p).result with
    | .error e =>
      ⟨.error e, (ClonedProject.compile_safe env p).state,
        (ClonedProject.compile_safe env p).compilerCalls⟩
    | .ok output =>
      match output.artifacts.find?
          (fun t => t.2.1 == p.metadata.target_contract) with
      | none =>
        ⟨.error (.notFound (contractNotFoundMsg p.metadata.target_contract)),
          (ClonedProject.compile_safe env p).state,
          (ClonedProject.compile_safe env p).compilerCalls⟩
      | some t =>
        ⟨.ok t.2.2,
          { (ClonedProject.compile_safe env p).state with
              main_artifact_cache := some t.2.2 },
          (ClonedProject.compile_safe env p).compilerCalls⟩

/-- The chain id `tweaked_code` compares against the metadata:
`self.config.chain.unwrap_or_default().id()`. -/
def ClonedProject.configuredChainId (p : ClonedProject) : Nat :=
  (p.config.chain.getD Chain.defaultChain).id

/-- The RPC options handed to the code generator (their contents are opaque
to `metadata.rs`). -/
structure RpcOpts where
  url : Option String
deriving DecidableEq, Repr

/-- Observable stages `tweaked_code` enters after the chain-identity check:
the storage-compatibility check (which compiles the project) and the code
generation (which queries the chain over RPC). -/
inductive TweakEvent where
  | storageCheck
  | codegen
deriving DecidableEq, Repr

/-- The collaborators of `tweaked_code` that live outside `metadata.rs`:
`super::compatibility::check_storage_compatibility` and
`super::code::generate_tweaked_code`. -/
structure TweakEnv where
  checkStorageCompatibility : ClonedProject → Except TweakError Unit
  generateTweakedCode : RpcOpts → ClonedProject → Bool → Except TweakError (List Nat)

/-- Result of a `tweaked_code` call: the returned bytes and the trace of
stages entered, in order. -/
structure TweakStep where
  result : Except TweakError (List Nat)
  events : List TweakEvent
deriving Repr

/-- Tweaked-code generation (`ClonedProject::tweaked_code`): first the
chain-identity check — if
`config.chain.unwrap_or_default().id()` differs from `metadata.chain_id`,
return the chain-mismatch error at once (no further stage is entered); then
the storage-compatibility check; then code generation. -/
def ClonedProject.tweaked_code (env : TweakEnv) (p : ClonedProject)
    (rpc : RpcOpts) (quick : Bool) : TweakStep :=
  if p.configuredChainId ≠ p.metadata.chain_id then
    ⟨.error (.chainMismatch p.configuredChainId p.metadata.chain_id), []⟩
  else
    match env.checkStorageCompatibility p with
    | .error e => ⟨.error e, [.storageCheck]⟩
    | .ok _ =>
      match env.generateTweakedCode rpc p quick with
      | .error e => ⟨.error e, [.storageCheck, .codegen]⟩
      | .ok code => ⟨.ok code, [.storageCheck, .codegen]⟩

/-- A structured value of the descriptor schema (the JSON document stored in
`.clone.meta`): strings, numbers, arrays and objects with named fields. -/
inductive Jv where
  | str (s : String)
  | num (n : Nat)
  | arr (xs : List Jv)
  | obj (fields : List (String × Jv))

/-- Look a field up by name in an object's field list (first occurrence). -/
def lookupField : List (String × Jv) → String → Option Jv
  | [], _ => none
  | (k, v) :: rest, key => if k == key then some v else lookupField rest key

/-- Read a `Jv` as a string. -/
def Jv.asStr : Jv → Option String
  | .str s => some s
  | _ => none

/-- Read a `Jv` as a number. -/
def Jv.asNum : Jv → Option Nat
  | .num n => some n
  | _ => none

/-- Read a list of `Jv` as a list of numbers (byte values). -/
def numListOfJv : List Jv → Option (List Nat)
  | [] => some []
  | x :: xs =>
    match x.asNum, numListOfJv xs with
    | some n, some ns => some (n :: ns)
    | _, _ => none

/-- Modelled from the spec: the descriptor encoding of one storage-variable
descriptor (slot index, byte offset, type size and encoding, label); the
serializing twin of `CloneMetadata` lives in the `forge clone` command, which
is not part of the shown source. -/
def storageVarToJv (v : StorageVar) : Jv :=
  .obj [("slot", .num v.slot), ("offset", .num v.offset),
        ("typeBytes", .num v.typeBytes), ("typeEncoding", .str v.typeEncoding),
        ("label", .str v.label)]

/-- Decode one storage-variable descriptor by field-name lookup. -/
def storageVarOfJv : Jv → Option StorageVar
  | .obj fs =>
    match (lookupField fs "slot").bind Jv.asNum,
        (lookupField fs "offset").bind Jv.asNum,
        (lookupField fs "typeBytes").bind Jv.asNum,
        (lookupField fs "typeEncoding").bind Jv.asStr,
        (lookupField fs "label").bind Jv.asStr with
    | some slot, some offset, some tb, some te, some label =>
      some ⟨slot, offset, tb, te, label⟩
    | _, _, _, _, _ => none
  | _ => none

/-- Decode an ordered list of storage-variable descriptors. -/
def storageVarsOfJv : List Jv → Option (List StorageVar)
  | [] => some []
  | x :: xs =>
    match storageVarOfJv x, storageVarsOfJv xs with
    | some v, some vs => some (v :: vs)
    | _, _ => none

/-- Modelled from the spec: the descriptor encoding of a storage layout — a
structured record holding the ordered list of storage-variable descriptors. -/
def storageLayoutToJv (l : StorageLayout) : Jv :=
  .obj [("storage", .arr (l.storage.map storageVarToJv))]

/-- Decode a storage layout. -/
def storageLayoutOfJv : Jv → Option StorageLayout
  | .obj fs =>
    match lookupField fs "storage" with
    | some (.arr xs) =>
      match storageVarsOfJv xs with
      | some vs => some ⟨vs⟩
      | none => none
    | _ => none
  | _ => none

/-- Modelled from the spec: serialize a `CloneMetadata` to the descriptor
schema, whose field names use the fixed lower-camel-case convention
(`path`, `targetContract`, `address`, `chainId`, `creationTransaction`,
`deployer`, `constructorArguments`, `storageLayout`); the serializing twin of
`CloneMetadata` lives in the `forge clone` command, outside the shown source. -/
def CloneMetadata.toDescriptor (m : CloneMetadata) : Jv :=
  .obj [("path", .str m.path),
        ("targetContract", .str m.target_contract),
        ("address", .num m.address),
        ("chainId", .num m.chain_id),
        ("creationTransaction", .num m.creation_transaction),
        ("deployer", .num m.deployer),
        ("constructorArguments", .arr (m.constructor_arguments.map Jv.num)),
        ("storageLayout", storageLayoutToJv m.storage_layout)]

/-- Deserialize a `CloneMetadata` from a descriptor value, mirroring the
serde-derived deserializer with `rename_all = "camelCase"`: each struct field
is looked up under its camel-case name; a missing or ill-typed field is a
parse error, extra fields are ignored. -/
def CloneMetadata.fromDescriptor : Jv → Except TweakError CloneMetadata
  | .obj fs =>
    match (lookupField fs "path").bind Jv.asStr,
        (lookupField fs "targetContract").bind Jv.asStr,
        (lookupField fs "address").bind Jv.asNum,
        (lookupField fs "chainId").bind Jv.asNum,
        (lookupField fs "creationTransaction").bind Jv.asNum,
        (lookupField fs "deployer").bind Jv.asNum,
        (lookupField fs "constructorArguments"),
        (lookupField fs "storageLayout") with
    | some path, some tc, some addr, some cid, some ct, some dep,
        some (.arr ca), some sl =>
      match numListOfJv ca, storageLayoutOfJv sl with
      | some args, some layout =>
        .ok ⟨path, tc, addr, cid, ct, dep, args, layout⟩
      | _, _ => .error (.parseErr "malformed descriptor field")
    | _, _, _, _, _, _, _, _ => .error (.parseErr "missing descriptor field")
  | _ => .error (.parseErr "expected a descriptor object")

/-! Concrete fixtures used to instantiate the theorems below. -/

/-- A one-variable storage layout. -/
def exLayout : StorageLayout := ⟨[⟨0, 0, 32, "inplace", "count"⟩]⟩

/-- A concrete clone descriptor (chain id 1). -/
def exMetadata : CloneMetadata :=
  ⟨"src/Counter.sol", "Counter", 190, 1, 77, 201, [1, 2], exLayout⟩

/-- A concrete compiled artifact. -/
def exArtifact : ConfigurableContractArtifact := ⟨[96, 128], [96, 64], some exLayout⟩

/-- A compile output holding exactly the `Counter` artifact. -/
def exOutput : ProjectCompileOutput := ⟨[("src/Counter.sol", "Counter", exArtifact)]⟩

/-- A configuration whose chain is chain 1. -/
def exConfig : Config := ⟨some ⟨1⟩, [], "evm"⟩

/-- A freshly loaded project (both caches empty). -/
def exProject : ClonedProject := ⟨"/home/u/counter", exConfig, exMetadata, none, none⟩

/-- A compile environment whose compiler succeeds with `exOutput`. -/
def exCompileEnv : CompileEnv :=
  ⟨.ok "/cwd", fun _ => .ok (), fun _ => .ok ⟨0⟩, fun _ => .ok exOutput⟩

/-- A compile environment whose compiler fails with a diagnostic. -/
def exFailCompileEnv : CompileEnv :=
  ⟨.ok "/cwd", fun _ => .ok (), fun _ => .ok ⟨0⟩,
    fun _ => .error "TypeError: wrong argument count"⟩

/-- A tweak environment whose storage check and code generation succeed. -/
def exTweakEnv : TweakEnv := ⟨fun _ => .ok (), fun _ _ _ => .ok [0, 97]⟩

/-- A project configured for chain 5 while its metadata records chain 1. -/
def exMismatchProject : ClonedProject :=
  ⟨"/home/u/counter", ⟨some ⟨5⟩, [], "evm"⟩, exMetadata, none, none⟩

/-- A project with no configured chain whose metadata records chain 7. -/
def exNoChain7Project : ClonedProject :=
  ⟨"/home/u/seven", ⟨none, [], ""⟩, { exMetadata with chain_id := 7 }, none, none⟩

/-- A project with no configured chain whose metadata records chain 1. -/
def exNoChain1Project : ClonedProject :=
  ⟨"/home/u/one", ⟨none, [], ""⟩, exMetadata, none, none⟩

/-- A project whose recorded target contract is absent from `exOutput`. -/
def exMissingTargetProject : ClonedProject :=
  ⟨"/home/u/counter", exConfig, { exMetadata with target_contract := "Token" }, none, none⟩

/-- A load environment whose filesystem is empty. -/
def exLoadEnv : LoadEnv :=
  ⟨fun _ => none, fun _ => .error "expected value", .ok "/cwd",
    fun _ => .ok (), fun r => ⟨none, [], r⟩⟩

/-- A one-file filesystem holding unparsable descriptor contents at
`/r/.clone.meta`. -/
def exBadFs : String → Option String :=
  fun p => if p == "/r/.clone.meta" then some "garbage" else none

/-- A descriptor parser that always fails. -/
def exFailParse : String → Except String CloneMetadata :=
  fun _ => .error "expected value at line 1"

/-! Theorems. -/

/-- C7: two `ClonedProject`s are equal exactly when their roots are equal, and
their ordering (both `cmp` and `partial_cmp`) is exactly the ordering of their
roots; configuration, metadata and cache contents never enter either
comparison. -/
theorem clonedProject_eq_ord_by_root (p q : ClonedProject) :
    (ClonedProject.beq p q = true ↔ p.root = q.root) ∧
    ClonedProject.cmp p q = compare p.root q.root ∧
    ClonedProject.pcmp p q = some (compare p.root q.root) := by
  refine ⟨?_, rfl, rfl⟩
  simp [ClonedProject.beq]

/-- C1: when the configured chain id differs from `metadata.chain_id`,
`tweaked_code` returns the chain-mismatch error with an empty stage trace:
no storage-compatibility check (hence no compilation) and no code generation
(hence no network call) happen before the error is returned. -/
theorem tweaked_code_chain_mismatch (env : TweakEnv) (p : ClonedProject)
    (rpc : RpcOpts) (quick : Bool)
    (h : p.configuredChainId ≠ p.metadata.chain_id) :
    ClonedProject.tweaked_code env p rpc quick =
      ⟨.error (.chainMismatch p.configuredChainId p.metadata.chain_id), []⟩ := by
  simp [ClonedProject.tweaked_code, h]

/-- Witness for C1: a project configured for chain 5 whose metadata records
chain 1 fails with the chain-mismatch error and enters no stage. -/
theorem tweaked_code_chain_mismatch_witness :
    ClonedProject.tweaked_code exTweakEnv exMismatchProject ⟨none⟩ true =
      ⟨.error (.chainMismatch 5 1), []⟩ :=
  tweaked_code_chain_mismatch exTweakEnv exMismatchProject ⟨none⟩ true (by decide)

/-- C9: with no configured chain, the chain-identity check of `tweaked_code`
compares the default chain id (1, mainnet) against `metadata.chain_id`: it is
no error, it errors with a chain mismatch exactly when `metadata.chain_id ≠ 1`,
and it proceeds to the storage check when `metadata.chain_id = 1`. -/
theorem tweaked_code_default_chain (env : TweakEnv) (p : ClonedProject)
    (rpc : RpcOpts) (quick : Bool) (h : p.config.chain = none) :
    p.configuredChainId = Chain.defaultChain.id ∧
    Chain.defaultChain.id = 1 ∧
    (p.metadata.chain_id ≠ 1 →
      ClonedProject.tweaked_code env p rpc quick =
        ⟨.error (.chainMismatch 1 p.metadata.chain_id), []⟩) ∧
    (p.metadata.chain_id = 1 →
      (ClonedProject.tweaked_code env p rpc quick).events.head? =
        some TweakEvent.storageCheck) := by
  have hid : p.configuredChainId = 1 := by
    simp [ClonedProject.configuredChainId, h, Chain.defaultChain]
  refine ⟨hid, rfl, ?_, ?_⟩
  · intro hne
    have hcond : ¬ (1 = p.metadata.chain_id) := fun he => hne he.symm
    simp [ClonedProject.tweaked_code, hid, hcond]
  · intro heq
    simp only [ClonedProject.tweaked_code, hid, heq, ne_eq, not_true_eq_false,
      if_false]
    cases env.checkStorageCompatibility p with
    | error e => simp
    | ok u =>
      cases env.generateTweakedCode rpc p quick with
      | error e => simp
      | ok code => simp

/-- Witness for C9: with no configured chain, metadata chain id 7 mismatches
the default id 1, and metadata chain id 1 passes on to the storage check. -/
theorem tweaked_code_default_chain_witness :
    ClonedProject.tweaked_code exTweakEnv exNoChain7Project ⟨none⟩ true =
      ⟨.error (.chainMismatch 1 7), []⟩ ∧
    (ClonedProject.tweaked_code exTweakEnv exNoChain1Project ⟨none⟩ true).events.head? =
      some TweakEvent.storageCheck :=
  ⟨(tweaked_code_default_chain exTweakEnv exNoChain7Project ⟨none⟩ true rfl).2.2.1
      (by decide),
   (tweaked_code_default_chain exTweakEnv exNoChain1Project ⟨none⟩ true rfl).2.2.2
      rfl⟩

/-- Every single `compile_safe` call leaves `root`, `config` and `metadata` of
the project unchanged: the storage-layout selection is pushed onto a clone of
the configuration, and only the compile-output cache is ever written. -/
theorem compile_safe_frame (env : CompileEnv) (p : ClonedProject) :
    (ClonedProject.compile_safe env p).state.root = p.root ∧
    (ClonedProject.compile_safe env p).state.config = p.config ∧
    (ClonedProject.compile_safe env p).state.metadata = p.metadata := by
  refine ⟨?_, ?_, ?_⟩ <;>
    (unfold ClonedProject.compile_safe; repeat' split) <;> rfl

/-- C10: `compile_safe` never mutates the stored configuration (nor the root
nor the metadata): after any number of calls, `config`, `root` and `metadata`
are those of the original project. -/
theorem compile_iter_frame (env : CompileEnv) (p : ClonedProject) (n : Nat) :
    (ClonedProject.compile_iter env p n).root = p.root ∧
    (ClonedProject.compile_iter env p n).config = p.config ∧
    (ClonedProject.compile_iter env p n).metadata = p.metadata := by
  induction n with
  | zero => exact ⟨rfl, rfl, rfl⟩
  | succ n ih =>
    have h := compile_safe_frame env (ClonedProject.compile_iter env p n)
    exact ⟨h.1.trans ih.1, h.2.1.trans ih.2.1, h.2.2.trans ih.2.2⟩

/-- C2: on a fresh instance (empty compile cache) whose first `compile_safe`
call succeeds, calling `compile_safe` twice invokes the external compiler
exactly once in total, and the second call returns the cached value of the
first — structurally identical output. -/
theorem compile_twice_compiles_once (env : CompileEnv) (p : ClonedProject)
    (out : ProjectCompileOutput)
    (hfresh : p.compile_output_cache = none)
    (hok : (ClonedProject.compile_safe env p).result = .ok out) :
    (ClonedProject.compile_safe env p).compilerCalls +
      (ClonedProject.compile_safe env
        (ClonedProject.compile_safe env p).state).compilerCalls = 1 ∧
    (ClonedProject.compile_safe env
      (ClonedProject.compile_safe env p).state).result = .ok out := by
  have hstep : ClonedProject.compile_safe env p =
      ⟨.ok out, { p with compile_output_cache := some out }, 1⟩ := by
    unfold ClonedProject.compile_safe at hok ⊢
    rw [hfresh] at hok ⊢
    repeat' split at hok
    all_goals simp_all
  rw [hstep]
  exact ⟨rfl, rfl⟩

/-- Witness for C2: with a succeeding compiler, the two sequential calls on a
fresh project make one compiler invocation and agree on the output. -/
theorem compile_twice_compiles_once_witness :
    (ClonedProject.compile_safe exCompileEnv exProject).compilerCalls +
      (ClonedProject.compile_safe exCompileEnv
        (ClonedProject.compile_safe exCompileEnv exProject).state).compilerCalls = 1 ∧
    (ClonedProject.compile_safe exCompileEnv
      (ClonedProject.compile_safe exCompileEnv exProject).state).result =
      .ok exOutput :=
  compile_twice_compiles_once exCompileEnv exProject exOutput rfl rfl

/-- C4: when the external compiler fails, `compile_safe` returns a compile
error carrying the compiler diagnostics, the project state (and in particular
the compile-output cache) is unchanged, and a subsequent call invokes the
compiler again — a retry is possible. -/
theorem compile_fail_leaves_cache_empty (env : CompileEnv) (p : ClonedProject)
    (cwd : String) (proj : Project) (d : String)
    (hfresh : p.compile_output_cache = none)
    (hcwd : env.currentDir = .ok cwd)
    (hset : env.setCurrentDir p.root = .ok ())
    (hproj : env.mkProject (withStorageLayoutOutput p.config) = .ok proj)
    (hfail : env.runCompiler proj = .error d) :
    ClonedProject.compile_safe env p = ⟨.error (.compileFail d), p, 1⟩ ∧
    (ClonedProject.compile_safe env p).state.compile_output_cache = none ∧
    (ClonedProject.compile_safe env
      (ClonedProject.compile_safe env p).state).compilerCalls = 1 := by
  have hstep : ClonedProject.compile_safe env p =
      ⟨.error (.compileFail d), p, 1⟩ := by
    unfold ClonedProject.compile_safe
    simp only [hfresh, hcwd, hset, hproj, hfail]
  refine ⟨hstep, ?_, ?_⟩
  · rw [hstep]
    exact hfresh
  · have hs : (ClonedProject.compile_safe env p).state = p := by rw [hstep]
    rw [hs, hstep]

/-- Witness for C4: a failing compiler yields the diagnostic-carrying error,
an empty cache, and a second call that invokes the compiler again. -/
theorem compile_fail_leaves_cache_empty_witness :
    ClonedProject.compile_safe exFailCompileEnv exProject =
      ⟨.error (.compileFail "TypeError: wrong argument count"), exProject, 1⟩ ∧
    (ClonedProject.compile_safe exFailCompileEnv exProject).state.compile_output_cache =
      none ∧
    (ClonedProject.compile_safe exFailCompileEnv
      (ClonedProject.compile_safe exFailCompileEnv exProject).state).compilerCalls = 1 :=
  compile_fail_leaves_cache_empty exFailCompileEnv exProject "/cwd" ⟨0⟩
    "TypeError: wrong argument count" rfl rfl rfl rfl rfl

/-- C3: with an empty artifact cache and a successful compile, `main_artifact`
takes the first `(file, contract, artifact)` entry of the compile output whose
contract name equals `metadata.target_contract`, returns its artifact and
caches it — a later call returns the identical cached artifact without
compiling — and when no entry matches it fails with the not-found error whose
message names the missing contract. -/
theorem main_artifact_spec (env : CompileEnv) (p : ClonedProject)
    (o : ProjectCompileOutput)
    (hc : p.main_artifact_cache = none)
    (ho : (ClonedProject.compile_safe env p).result = .ok o) :
    (∀ t, o.artifacts.find? (fun t => t.2.1 == p.metadata.target_contract) = some t →
      ClonedProject.main_artifact env p =
        ⟨.ok t.2.2,
          { (ClonedProject.compile_safe env p).state with
              main_artifact_cache := some t.2.2 },
          (ClonedProject.compile_safe env p).compilerCalls⟩ ∧
      ClonedProject.main_artifact env (ClonedProject.main_artifact env p).state =
        ⟨.ok t.2.2, (ClonedProject.main_artifact env p).state, 0⟩) ∧
    (o.artifacts.find? (fun t => t.2.1 == p.metadata.target_contract) = none →
      (ClonedProject.main_artifact env p).result =
        .error (.notFound (contractNotFoundMsg p.metadata.target_contract))) := by
  constructor
  · intro t ht
    have h1 : ClonedProject.main_artifact env p =
        ⟨.ok t.2.2,
          { (ClonedProject.compile_safe env p).state with
              main_artifact_cache := some t.2.2 },
          (ClonedProject.compile_safe env p).compilerCalls⟩ := by
      unfold ClonedProject.main_artifact
      simp only [hc, ho, ht]
    refine ⟨h1, ?_⟩
    have hcache : (ClonedProject.main_artifact env p).state.main_artifact_cache =
        some t.2.2 := by rw [h1]
    have hhit : ∀ q : ClonedProject, q.main_artifact_cache = some t.2.2 →
        ClonedProject.main_artifact env q = ⟨.ok t.2.2, q, 0⟩ := by
      intro q hq
      unfold ClonedProject.main_artifact
      rw [hq]
    exact hhit _ hcache
  · intro hnone
    unfold ClonedProject.main_artifact
    simp only [hc, ho, hnone]

/-- Witness for C3: the `Counter` target resolves to its artifact (and stays
cached), while a `Token` target absent from the output fails with the
message naming `Token`. -/
theorem main_artifact_spec_witness :
    (ClonedProject.main_artifact exCompileEnv exProject).result = .ok exArtifact ∧
    ClonedProject.main_artifact exCompileEnv
        (ClonedProject.main_artifact exCompileEnv exProject).state =
      ⟨.ok exArtifact, (ClonedProject.main_artifact exCompileEnv exProject).state, 0⟩ ∧
    (ClonedProject.main_artifact exCompileEnv exMissingTargetProject).result =
      .error (.notFound "the contract Token is not found in the project") := by
  have h := (main_artifact_spec exCompileEnv exProject exOutput rfl rfl).1
    ("src/Counter.sol", "Counter", exArtifact) rfl
  refine ⟨?_, h.2, ?_⟩
  · rw [h.1]
  · exact (main_artifact_spec exCompileEnv exMissingTargetProject exOutput rfl rfl).2 rfl

/-- C5: the Metadata Store load reads the descriptor at the fixed path
`root/.clone.meta`: an absent file is the not-found error, unparsable
contents are the parse error, and the result depends only on the filesystem's
contents at that one path — the read is its only effect. -/
theorem cloneMetadata_load_spec (fs : String → Option String)
    (parseMeta : String → Except String CloneMetadata) (root : String) :
    (fs (cloneMetaPath root) = none →
      CloneMetadata.load_with_root fs parseMeta root =
        .error (.notFound (cloneMetaPath root))) ∧
    (∀ s e, fs (cloneMetaPath root) = some s → parseMeta s = .error e →
      CloneMetadata.load_with_root fs parseMeta root = .error (.parseErr e)) ∧
    (∀ fs2 : String → Option String,
      fs2 (cloneMetaPath root) = fs (cloneMetaPath root) →
      CloneMetadata.load_with_root fs2 parseMeta root =
        CloneMetadata.load_with_root fs parseMeta root) := by
  refine ⟨?_, ?_, ?_⟩
  · intro h
    unfold CloneMetadata.load_with_root
    rw [h]
  · intro s e h1 h2
    unfold CloneMetadata.load_with_root
    simp only [h1, h2]
  · intro fs2 h
    unfold CloneMetadata.load_with_root
    rw [h]

/-- Witness for C5: an empty filesystem yields the not-found error at the
fixed path, garbage contents yield the parse error, and a filesystem agreeing
at the fixed path loads identically. -/
theorem cloneMetadata_load_spec_witness :
    CloneMetadata.load_with_root (fun _ => none) exFailParse "/r" =
      .error (.notFound "/r/.clone.meta") ∧
    CloneMetadata.load_with_root exBadFs exFailParse "/r" =
      .error (.parseErr "expected value at line 1") ∧
    CloneMetadata.load_with_root
        (fun p => if p == "/r/.clone.meta" then none else some "x")
        exFailParse "/r" =
      CloneMetadata.load_with_root (fun _ => none) exFailParse "/r" :=
  ⟨(cloneMetadata_load_spec (fun _ => none) exFailParse "/r").1 rfl,
   (cloneMetadata_load_spec exBadFs exFailParse "/r").2.1 "garbage"
     "expected value at line 1" rfl rfl,
   (cloneMetadata_load_spec (fun _ => none) exFailParse "/r").2.2
     (fun p => if p == "/r/.clone.meta" then none else some "x") rfl⟩

/-- C6 counterexample: at the non-absolute root `"rel"`, `load_with_root`
panics on `assert!(root.is_absolute())`; it does not return an error to its
caller. -/
theorem load_relative_root_panics :
    ClonedProject.load_with_root exLoadEnv "rel" = LoadOutcome.panicked ∧
    (ClonedProject.load_with_root exLoadEnv "rel").isErr = false := by
  exact ⟨rfl, rfl⟩

/-- C6 (amended): a non-absolute root makes `load_with_root` panic on its
assertion rather than return an error; for an absolute root, a failing
Metadata Store load (the current-directory operations succeeding) has its
error propagated unchanged; configuration resolution is infallible in the
code (`Config::load_with_root` returns a `Config`, not a `Result`). -/
theorem load_with_root_spec (env : LoadEnv) (root : String) :
    (isAbsolutePath root = false →
      ClonedProject.load_with_root env root = LoadOutcome.panicked) ∧
    (∀ cwd e, isAbsolutePath root = true →
      env.currentDir = .ok cwd →
      env.setCurrentDir root = .ok () →
      env.setCurrentDir cwd = .ok () →
      CloneMetadata.load_with_root env.fs env.parseMeta root = .error e →
      ClonedProject.load_with_root env root = LoadOutcome.err e) := by
  constructor
  · intro h
    simp [ClonedProject.load_with_root, h]
  · intro cwd e habs h1 h2 h3 h4
    simp only [ClonedProject.load_with_root, habs, h1, h2, h3, h4,
      Bool.not_true, Bool.false_eq_true, if_false]

/-- Witness for C6 (amended): `"relpath"` panics; for the absolute root
`"/abs"` over an empty filesystem, the metadata-load error is returned
unchanged. -/
theorem load_with_root_spec_witness :
    ClonedProject.load_with_root exLoadEnv "relpath" = LoadOutcome.panicked ∧
    ClonedProject.load_with_root exLoadEnv "/abs" =
      LoadOutcome.err (.notFound "/abs/.clone.meta") :=
  ⟨(load_with_root_spec exLoadEnv "relpath").1 rfl,
   (load_with_root_spec exLoadEnv "/abs").2 "/cwd"
     (.notFound "/abs/.clone.meta") rfl rfl rfl rfl rfl⟩

/-- Decoding a list of encoded byte values restores the list. -/
theorem numListOfJv_map (l : List Nat) : numListOfJv (l.map Jv.num) = some l := by
  induction l with
  | nil => rfl
  | cons x xs ih => simp [numListOfJv, Jv.asNum, ih]

/-- Decoding an encoded storage-variable descriptor restores it. -/
theorem storageVarOfJv_toJv (v : StorageVar) :
    storageVarOfJv (storageVarToJv v) = some v := by
  cases v
  rfl

/-- Decoding a list of encoded storage-variable descriptors restores it. -/
theorem storageVarsOfJv_map (l : List StorageVar) :
    storageVarsOfJv (l.map storageVarToJv) = some l := by
  induction l with
  | nil => rfl
  | cons v vs ih => simp [storageVarsOfJv, storageVarOfJv_toJv, ih]

/-- Decoding an encoded storage layout restores it. -/
theorem storageLayoutOfJv_toJv (l : StorageLayout) :
    storageLayoutOfJv (storageLayoutToJv l) = some l := by
  cases l with
  | mk vars =>
    simp [storageLayoutToJv, storageLayoutOfJv, lookupField, storageVarsOfJv_map]

/-- C8: serializing a `CloneMetadata` to the descriptor schema and reloading
the result yields the original value, field for field. -/
theorem cloneMetadata_descriptor_roundtrip (m : CloneMetadata) :
    CloneMetadata.fromDescriptor (CloneMetadata.toDescriptor m) = .ok m := by
  cases m with
  | mk path tc addr cid ct dep ca sl =>
    simp [CloneMetadata.toDescriptor, CloneMetadata.fromDescriptor, lookupField,
      Jv.asStr, Jv.asNum, numListOfJv_map, storageLayoutOfJv_toJv]

end Tweak
